import Mathlib

/-!
Verification development for the nyff-scraper pipeline.

The Python source is shallowly embedded: film-record dictionaries become a
`Film` structure (a `get` with a default becomes a plain field holding that
default; a key that may be absent becomes an `Option`); pure classification
and scoring functions become Lean functions over `Film`; the network layer is
modelled by passing the attempt outcomes in explicitly, so that a fetch
routine becomes a function of the cache state and the outcome oracle that
also reports how many network attempts it performed.

String scanning is done on `String.data` character lists with structural
recursion, so every definition evaluates by kernel reduction.
-/

namespace NyffScraper

/-! ## Character-list string utilities (Python string operations) -/

/-- Membership test of `needle` as a contiguous substring of `hay`
(Python's `needle in hay`). -/
def charsContains (hay needle : List Char) : Bool :=
  hay.tails.any (fun t => needle.isPrefixOf t)

/-- Python `needle in hay` on strings. -/
def strContains (hay needle : String) : Bool :=
  charsContains hay.data needle.data

/-- Python `str.lower()`. -/
def strLower (s : String) : String :=
  ⟨s.data.map Char.toLower⟩

/-- Python whitespace for `str.strip()` / `str.split()`. -/
def isPySpace (c : Char) : Bool :=
  c = ' ' || c = '\t' || c = '\n' || c = '\r' || c = '\x0b' || c = '\x0c'

/-- Python `str.strip()` on a character list. -/
def charsStrip (cs : List Char) : List Char :=
  ((cs.dropWhile isPySpace).reverse.dropWhile isPySpace).reverse

/-- Python `str.strip()`. -/
def pyStrip (s : String) : String :=
  ⟨charsStrip s.data⟩

/-- Auxiliary for `splitOnChar`: accumulates the current field (reversed). -/
def splitOnCharGo (sep : Char) : List Char → List Char → List (List Char)
  | [], acc => [acc.reverse]
  | c :: rest, acc =>
      if c = sep then acc.reverse :: splitOnCharGo sep rest []
      else splitOnCharGo sep rest (c :: acc)

/-- Python `s.split(sep)` for a one-character separator. -/
def splitOnChar (sep : Char) (cs : List Char) : List (List Char) :=
  splitOnCharGo sep cs []

/-- Python `str.isdigit()` restricted to ASCII digits (the only digits the
scraped pages contain). -/
def charsAllDigits (cs : List Char) : Bool :=
  cs ≠ [] && cs.all Char.isDigit

/-- Numeric value of an ASCII digit string. -/
def digitsToNat (cs : List Char) : Nat :=
  cs.foldl (fun n c => 10 * n + (c.toNat - '0'.toNat)) 0

/-- Python truthiness of an optional string: `None` and `""` are falsy. -/
def strOptTruthy : Option String → Bool
  | none => false
  | some s => s ≠ ""

/-! ## Data model

`Film` embeds the per-film dictionary.  Fields read through
`film.get(key, default)` in the source are plain fields initialised to that
default; fields whose *presence* the source tests (`'notes' in film`) or that
can hold `None` are `Option`s. -/

structure Showtime where
  date : Option String := none
  time : Option String := none
  venue : String := "TBA"
  showNotes : List String := []
  available : Bool := true
  raw_text : String := ""
  deriving Repr, DecidableEq

structure Film where
  title : String := ""
  director : String := ""
  description : String := ""
  year : String := ""
  country : String := ""
  runtime : String := ""
  category : String := ""
  filmNotes : Option String := none
  nyff_showtimes : List Showtime := []
  screenings : List String := []
  is_short_program : Bool := false
  is_restoration : Bool := false
  has_intro_or_qna : Bool := false
  production_companies : List String := []
  distributors : List String := []
  theatrical_release_date : Option String := none
  distribution_likelihood_score : Int := 0
  is_likely_to_be_distributed : Bool := false
  likely_theatrical : Bool := false
  trailer_url : Option String := none
  youtube_search_url : Option String := none
  deriving Repr, DecidableEq

/-! ## distribution_scorer.py — DistributionLikelihoodScorer -/

/-- `self.section_weights` together with the `.get(festival_section, 0)`
lookup of `calculate_festival_section_score`. -/
def section_weights (s : String) : Int :=
  if s = "main slate" then 50
  else if s = "spotlight" then 45
  else if s = "currents" then -40
  else if s = "restoration" then -70
  else if s = "revivals" then -70
  else if s = "shorts" then -80
  else 0

def main_slate_indicators : List String :=
  ["main slate", "opening night", "closing night", "centerpiece",
   "gala screening", "world premiere", "north american premiere"]

def spotlight_indicators : List String :=
  ["spotlight", "special presentation", "red carpet",
   "festival highlight", "special screening"]

def currents_indicators : List String :=
  ["currents", "experimental", "avant-garde", "art house",
   "independent", "emerging filmmaker"]

def restoration_indicators : List String :=
  ["restoration", "revival", "retrospective", "classic",
   "newly restored", "4k restoration", "remastered"]

/-- `DistributionLikelihoodScorer.extract_festival_section`. -/
def extract_festival_section (film : Film) : String :=
  let category := strLower film.category
  if category = "shorts" || category = "restoration" then category
  else if film.is_short_program then "shorts"
  else if film.is_restoration then "restoration"
  else
    let text_content := strLower film.title ++ " " ++ strLower film.description
    if main_slate_indicators.any (fun i => strContains text_content i) then
      "main slate"
    else if spotlight_indicators.any (fun i => strContains text_content i) then
      "spotlight"
    else if currents_indicators.any (fun i => strContains text_content i) then
      "currents"
    else if restoration_indicators.any (fun i => strContains text_content i) then
      "restoration"
    else "unknown"

/-- `DistributionLikelihoodScorer.calculate_festival_section_score`. -/
def calculate_festival_section_score (festival_section : String) : Int :=
  section_weights festival_section

/-- `DistributionLikelihoodScorer.calculate_imdb_score`. -/
def calculate_imdb_score (film : Film)
    (theatrical_release_date : Option String) : Int :=
  let s1 : Int := if film.distributors ≠ [] then 40 else 0
  let s2 : Int := s1 + (if film.production_companies.length > 3 then 20 else 0)
  s2 + (if strOptTruthy theatrical_release_date then 10 else 0)

/-- `DistributionLikelihoodScorer.calculate_legacy_producer_distributor_score`. -/
def calculate_legacy_producer_distributor_score (film : Film) : Int :=
  let s1 : Int := if film.production_companies.length > 2 then 20 else 0
  s1 + (if film.distributors ≠ [] then 30 else 0)

/-- `DistributionLikelihoodScorer.calculate_distribution_likelihood_score`,
returning `(final_score, is_likely_distributed, theatrical_release_date)`. -/
def calculate_distribution_likelihood_score (film : Film) :
    Int × Bool × Option String :=
  let festival_section := extract_festival_section film
  let section_score := calculate_festival_section_score festival_section
  let theatrical_release_date := film.theatrical_release_date
  let imdb_score := calculate_imdb_score film theatrical_release_date
  let legacy_score := calculate_legacy_producer_distributor_score film
  let total_score := section_score + imdb_score + legacy_score
  let final_score := max 0 (min 100 total_score)
  let is_likely_distributed := final_score ≥ 50
  (final_score, is_likely_distributed, theatrical_release_date)

/-- `DistributionLikelihoodScorer.enrich_film_with_distribution_score`. -/
def enrich_film_with_distribution_score (film : Film) : Film :=
  let r := calculate_distribution_likelihood_score film
  { film with
    distribution_likelihood_score := r.1
    is_likely_to_be_distributed := r.2.1
    theatrical_release_date := r.2.2
    likely_theatrical := r.2.1 }

/-- A record in section "shorts" (explicit category field) with exactly one
distributor and no other distribution signals. -/
def shortsProgramFilm : Film := { category := "shorts", distributors := ["A24"] }

/-- A record placed in the "main slate" section by keyword scan, with no
distributors, no production companies and no release date. -/
def mainSlateFilm : Film :=
  { title := "Film", description := "Part of the Main Slate" }

/-! ## scraper.py — NYFFScraper fetch layer

The network is modelled by passing in the outcome of each attempt: the
retry loop of `get_cached_or_fetch` performs at most `max_retries = 3`
attempts, so the oracle is a function `Fin 3 → AttemptOutcome`.  Each fetch
function returns its result together with the number of network attempts it
performed, so "no network call" is expressible. -/

/-- Outcome of one network attempt inside `get_cached_or_fetch`:
`success content` is an HTTP success whose decoded body passed the HTML
validation (it is cached and returned); `invalidContent` is an HTTP success
for which `_decode_response_content` returned `None`; `failure status` is a
`requests.RequestException`, carrying the HTTP status code when the
exception has a response attached. -/
inductive AttemptOutcome where
  | success (content : String)
  | invalidContent
  | failure (status : Option Nat)
  deriving Repr, DecidableEq

def AttemptOutcome.isSuccess : AttemptOutcome → Bool
  | .success _ => true
  | _ => false

/-- The cache decision of `NYFFScraper.get_cached_or_fetch` (lines 187–201):
use the cache iff the cache file exists, `force_refresh` is not set, and
either no `max_age_minutes` was given or the file age in minutes is at most
`max_age_minutes`.  The file age (`(time.time() - mtime) / 60`) is modelled
as an exact rational number of minutes. -/
def should_use_cache (cacheExists force_refresh : Bool)
    (max_age_minutes : Option ℚ) (file_age_minutes : ℚ) : Bool :=
  if cacheExists && !force_refresh then
    match max_age_minutes with
    | none => true
    | some m => file_age_minutes ≤ m
  else false

/-- The retry loop of `NYFFScraper.get_cached_or_fetch` (lines 210–265):
up to three attempts; an attempt whose content is valid returns it at once,
an invalid-content attempt or a request exception moves on to the next
attempt, and when all attempts are exhausted the loop falls through to
`return None`.  The second component counts the network attempts made. -/
def fetch_with_retries (outcomes : Fin 3 → AttemptOutcome) :
    Option String × Nat :=
  match outcomes 0 with
  | .success c => (some c, 1)
  | _ =>
    match outcomes 1 with
    | .success c => (some c, 2)
    | _ =>
      match outcomes 2 with
      | .success c => (some c, 3)
      | _ => (none, 3)

/-- `NYFFScraper.get_cached_or_fetch` (lines 165–265): serve the cache when
`should_use_cache` holds (zero network attempts), otherwise run the retry
loop. -/
def get_cached_or_fetch (cacheExists force_refresh : Bool)
    (max_age_minutes : Option ℚ) (file_age_minutes : ℚ)
    (cachedContent : String) (outcomes : Fin 3 → AttemptOutcome) :
    Option String × Nat :=
  if should_use_cache cacheExists force_refresh max_age_minutes
      file_age_minutes then
    (some cachedContent, 0)
  else
    fetch_with_retries outcomes

/-- Delay category chosen by the exception handler of the retry loop. -/
inductive RetryDelay where
  | cloudflare
  | extraLong
  | noDelay
  deriving Repr, DecidableEq

/-- The exception handler of the retry loop (lines 250–262): after a failed
attempt that is not the last (`attempt < max_retries - 1` with
`max_retries = 3`), a response with status in `[403, 503, 429]` receives the
5–10 s "Cloudflare" delay; the subsequent `elif status == 429` arm would
receive the 10–20 s delay; anything else sleeps only the backoff delay of
the next attempt. -/
def retry_failure_delay (attempt : Nat) (status : Option Nat) : RetryDelay :=
  if attempt < 3 - 1 then
    match status with
    | some s =>
        if s = 403 || s = 503 || s = 429 then RetryDelay.cloudflare
        else if s = 429 then RetryDelay.extraLong
        else RetryDelay.noDelay
    | none => RetryDelay.noDelay
  else RetryDelay.noDelay

/-- Python truthiness of the `content` variable of `scrape_nyff_lineup`
(`if content: break` / `if not content: return []`). -/
def contentTruthy : Option String → Bool
  | none => false
  | some c => c ≠ ""

/-- The backup-URL loop of `scrape_nyff_lineup` (lines 297–312): fetch each
backup URL in order, keeping the last fetched value and stopping at the
first truthy content.  The first argument is the value of `content` before
the loop runs. -/
def backup_loop : Option String → List (Option String) → Option String
  | acc, [] => acc
  | _, o :: rest => if contentTruthy o then o else backup_loop o rest

/-- `NYFFScraper.scrape_nyff_lineup` (lines 267–336) with the fetch results
supplied explicitly (`primary` for the primary URL, `backups` for the backup
URL list, in order) and the HTML parsing plus per-container extraction
abstracted as `parse`.  The backup loop runs only when the primary fetch
returned `None`; a falsy final content yields the empty list. -/
def scrape_nyff_lineup (primary : Option String)
    (backups : List (Option String)) (parse : String → List Film) :
    List Film :=
  let content := if primary = none then backup_loop none backups else primary
  match content with
  | none => []
  | some c => if c = "" then [] else parse c

/-! ## trailer_enricher.py — TrailerEnricher -/

/-- Python truthiness of the `limit` argument (`if limit:`). -/
def natOptTruthy : Option Nat → Bool
  | none => false
  | some n => n ≠ 0

/-- Python `" ".join(parts)` and friends. -/
def joinSep (sep : String) : List String → String
  | [] => ""
  | [s] => s
  | s :: rest => s ++ sep ++ joinSep sep rest

/-- Python `s.replace(c1, c2)` for one-character arguments. -/
def pyReplaceChar (c1 c2 : Char) (s : String) : String :=
  ⟨s.data.map (fun c => if c = c1 then c2 else c)⟩

/-- `TrailerEnricher.construct_youtube_search_url` (lines 105–127). -/
def construct_youtube_search_url (title year director : String) : String :=
  let query_parts :=
    [title] ++ (if director ≠ "" then [director] else []) ++
    (if year ≠ "" then [year] else []) ++ ["trailer"]
  let query := pyReplaceChar ' ' '+' (joinSep " " query_parts)
  "https://www.youtube.com/results?search_query=" ++ query

/-- The per-film body of `TrailerEnricher.enrich_films` (lines 147–182),
with the result of `search_youtube_trailer` (a network interaction)
supplied as `searchResult`: a shorts program gets empty trailer and search
URLs; otherwise, with `search_trailers` set and a truthy title and year, the
search result and the manual search URL are stored; otherwise only the
manual search URL (when title and year are truthy) is stored. -/
def trailer_enrich_film (search_trailers : Bool) (searchResult : String)
    (film : Film) : Film :=
  if film.is_short_program then
    { film with trailer_url := some "", youtube_search_url := some "" }
  else if search_trailers && film.title ≠ "" && film.year ≠ "" then
    { film with
      trailer_url := some searchResult
      youtube_search_url := some (construct_youtube_search_url
        film.title film.year film.director) }
  else
    { film with
      trailer_url := some ""
      youtube_search_url := some (if film.title ≠ "" && film.year ≠ "" then
        construct_youtube_search_url film.title film.year film.director
        else "") }

/-- `TrailerEnricher.enrich_films` (lines 129–183): optional truthy limit,
then the per-film enrichment, with the trailer search modelled as an oracle
from films to search results. -/
def trailer_enrich_films (search_trailers : Bool) (limit : Option Nat)
    (search : Film → String) (films : List Film) : List Film :=
  let films := if natOptTruthy limit then films.take (limit.getD 0) else films
  films.map (fun f => trailer_enrich_film search_trailers (search f) f)

/-! ## imdb_enricher.py — IMDbEnricher fetch layer -/

/-! ## metadata_enricher.py — MetadataEnricher

The classification functions read the record fields at the top (Python's
`film.get(...)`) and then work on the local values, so each is a function
of the raw extracted fields only. -/

def shorts_title_indicators : List String :=
  ["shorts", "short films", "short program", "anthology",
   "collection", "omnibus", "portmanteau"]

def shorts_desc_indicators : List String :=
  ["short films", "shorts program", "anthology", "collection of",
   "various directors", "multiple filmmakers", "several shorts"]

/-- `\s*[A-Z]` at the head of a character list.  (`\s*` is greedy, but
whitespace is never an upper-case letter, so dropping all of it is
equivalent.) -/
def wsThenUpper (cs : List Char) : Bool :=
  match cs.dropWhile isPySpace with
  | c :: _ => c.isUpper
  | [] => false

/-- A match of `(?:and|&|\+|,)\s*[A-Z]` starting at the head. -/
def multiDirectorPattern1At (cs : List Char) : Bool :=
  (['a', 'n', 'd'].isPrefixOf cs && wsThenUpper (cs.drop 3)) ||
  (['&'].isPrefixOf cs && wsThenUpper (cs.drop 1)) ||
  (['+'].isPrefixOf cs && wsThenUpper (cs.drop 1)) ||
  ([','].isPrefixOf cs && wsThenUpper (cs.drop 1))

/-- Consume `[A-Z][a-z]+` at the head, returning the rest.  (`[a-z]+` is
greedy; no backtracking is needed because a lower-case letter can satisfy
neither of the following `\s`/end positions in the pattern below.) -/
def upperWord (cs : List Char) : Option (List Char) :=
  match cs with
  | c :: rest =>
      if c.isUpper && rest.takeWhile Char.isLower ≠ [] then
        some (rest.dropWhile Char.isLower)
      else none
  | [] => none

/-- A match of `,\s*[A-Z][a-z]+\s+[A-Z][a-z]+` starting at the head. -/
def multiDirectorPattern2At (cs : List Char) : Bool :=
  match cs with
  | ',' :: rest =>
      match upperWord (rest.dropWhile isPySpace) with
      | some r2 =>
          if r2.takeWhile isPySpace = [] then false
          else
            match upperWord (r2.dropWhile isPySpace) with
            | some _ => true
            | none => false
      | none => false
  | _ => false

/-- `re.search` of the two `multiple_director_patterns` of
`MetadataEnricher.is_short_program` (lines 42–45): any suffix position may
start a match.  (The director text these are searched in has been
lower-cased by the caller, so in the source these patterns can in fact
never fire; the embedding keeps them as written.) -/
def searchMultiDirectorPatterns (cs : List Char) : Bool :=
  cs.tails.any multiDirectorPattern1At || cs.tails.any multiDirectorPattern2At

/-- `MetadataEnricher.is_short_program` (lines 22–70). -/
def is_short_program_fn (film : Film) : Bool :=
  let title := strLower film.title
  let description := strLower film.description
  let director := strLower film.director
  if shorts_title_indicators.any (fun i => strContains title i) then true
  else if shorts_desc_indicators.any (fun i => strContains description i) then
    true
  else if searchMultiDirectorPatterns director.data then true
  else
    let runtime := strLower film.runtime
    runtime ≠ "" &&
      ["shorts", "films", "segments"].any (fun w => strContains runtime w)

def metadata_restoration_indicators : List String :=
  ["restoration", "4k restoration", "new restoration", "restored",
   "remastered", "revival", "classic", "retrospective",
   "newly restored", "digital restoration"]

/-- `MetadataEnricher.is_restoration` (lines 72–105): keyword scan, then
`int(year) < 2020` with Python truthiness (`film_year and film_year < 2020`,
so year 0 does not trigger). -/
def is_restoration_fn (film : Film) : Bool :=
  let text_content := strLower film.title ++ " " ++ strLower film.description
  if metadata_restoration_indicators.any
      (fun i => strContains text_content i) then true
  else
    charsAllDigits film.year.data && digitsToNat film.year.data ≠ 0 &&
      digitsToNat film.year.data < 2020

def showtime_note_keywords : List String :=
  ["q&a", "intro", "introduction", "panel", "discussion"]

def intro_qna_indicators : List String :=
  ["q&a", "introduction", "panel", "discussion",
   "filmmaker in attendance", "followed by", "with director", "with cast",
   "film scholar", "critic", "moderated", "special guest"]

/-- `MetadataEnricher.has_intro_or_qna` (lines 123–152). -/
def has_intro_or_qna_fn (film : Film) : Bool :=
  if film.nyff_showtimes.any (fun st =>
      st.showNotes.any (fun note =>
        showtime_note_keywords.any
          (fun k => strContains (strLower note) k))) then true
  else
    intro_qna_indicators.any
      (fun i => strContains (strLower film.description) i)

def metadata_spotlight_indicators : List String :=
  ["spotlight", "opening night", "closing night", "gala",
   "centerpiece", "special screening", "world premiere",
   "red carpet", "festival highlight"]

/-- `re.search(r'(\d+)', s)`: value of the first maximal digit run. -/
def firstNumber : List Char → Option Nat
  | [] => none
  | c :: rest =>
      if c.isDigit then some (digitsToNat (c :: rest.takeWhile Char.isDigit))
      else firstNumber rest

/-- `MetadataEnricher.categorize_film` (lines 154–196).  (Both arms of the
runtime test return "feature", as in the source.) -/
def categorize_film_fn (film : Film) : String :=
  let title := strLower film.title
  let description := strLower film.description
  if film.is_short_program then "shorts"
  else if film.is_restoration then "restoration"
  else
    let text_content := title ++ " " ++ description
    if metadata_spotlight_indicators.any
        (fun i => strContains text_content i) then "spotlight"
    else if film.runtime ≠ "" then
      match firstNumber film.runtime.data with
      | some minutes => if minutes ≥ 40 then "feature" else "feature"
      | none => "feature"
    else "feature"

/-- The emoji character class of `MetadataEnricher.clean_notes`
(lines 211–220). -/
def isEmojiChar (c : Char) : Bool :=
  let n := c.toNat
  (0x1F600 ≤ n && n ≤ 0x1F64F) || (0x1F300 ≤ n && n ≤ 0x1F5FF) ||
  (0x1F680 ≤ n && n ≤ 0x1F6FF) || (0x1F1E0 ≤ n && n ≤ 0x1F1FF) ||
  (0x2702 ≤ n && n ≤ 0x27B0) || (0x24C2 ≤ n && n ≤ 0x1F251)

/-- Python `str.split()` (split on whitespace runs, no empty fields). -/
def pySplitWsGo : List Char → List Char → List String
  | [], acc => if acc.isEmpty then [] else [⟨acc.reverse⟩]
  | c :: rest, acc =>
      if isPySpace c then
        if acc.isEmpty then pySplitWsGo rest []
        else (⟨acc.reverse⟩ : String) :: pySplitWsGo rest []
      else pySplitWsGo rest (c :: acc)

def pySplitWs (s : String) : List String := pySplitWsGo s.data []

/-- `MetadataEnricher.clean_notes` (lines 198–227): drop emoji characters,
collapse whitespace. -/
def clean_notes (s : String) : String :=
  if s = "" then ""
  else joinSep " " (pySplitWs ⟨s.data.filter (fun c => !isEmojiChar c)⟩)

/-- The flag/category part of the per-film body of
`MetadataEnricher.enrich_films` (lines 242–251), in the source's write
order. -/
def classify_film (film : Film) : Film :=
  let f1 := { film with is_short_program := is_short_program_fn film }
  let f2 := { f1 with is_restoration := is_restoration_fn f1 }
  let f3 := { f2 with has_intro_or_qna := has_intro_or_qna_fn f2 }
  { f3 with category := categorize_film_fn f3 }

/-- The notes part of the per-film body of `MetadataEnricher.enrich_films`
(lines 256–272): clean existing notes, otherwise synthesize them. -/
def set_film_notes (f : Film) : Film :=
  match f.filmNotes with
  | some n => { f with filmNotes := some (clean_notes n) }
  | none =>
      let notes_parts :=
        (if f.is_short_program then ["Shorts program"] else []) ++
        (if f.is_restoration then ["Restoration/revival"] else []) ++
        (if f.has_intro_or_qna then ["Includes intro/Q&A"] else []) ++
        (if f.is_likely_to_be_distributed then []
         else ["Limited distribution expected"])
      { f with filmNotes := some (joinSep "; " notes_parts) }

/-- The complete per-film body of `MetadataEnricher.enrich_films`
(lines 242–274): classification flags, category, distribution scoring,
notes. -/
def metadata_enrich_film (film : Film) : Film :=
  set_film_notes (enrich_film_with_distribution_score (classify_film film))

/-- `MetadataEnricher.enrich_films` (lines 229–288). -/
def metadata_enrich_films (films : List Film) : List Film :=
  films.map metadata_enrich_film

/-- A concrete shorts-program record and its trailer enrichment, for the C6
witness. -/
def shortsBatchFilm : Film :=
  { title := "Shorts Program One", year := "2025", is_short_program := true }

def shortsBatchEnriched : Film :=
  trailer_enrich_film true "found" shortsBatchFilm

/-- The cleanup step of `IMDbEnricher.get_company_credits` (lines 815–818):
`list(set([x for x in l if x.strip()]))` — drop entries that are empty
after stripping, then deduplicate by exact string equality (the Python
`set`; the iteration order of the set is modelled as first occurrences). -/
def clean_company_list (l : List String) : List String :=
  (l.filter (fun s => pyStrip s ≠ "")).dedup

/-- `IMDbEnricher.get_company_credits` (lines 751–828), with the HTML
scanning abstracted: the company names extracted (each via BeautifulSoup's
`get_text(strip=True)`, so each already whitespace-stripped) come in as the
two raw lists, and the function applies the cleanup step to each. -/
def get_company_credits_result (production_companies distributors :
    List String) : List String × List String :=
  (clean_company_list production_companies, clean_company_list distributors)

/-! ### Dates (`IMDbEnricher._parse_date_from_string` and the festival
debut computation)

A parsed `datetime` is modelled by its proleptic-Gregorian day ordinal
(Python's `date.toordinal`), so differences of ordinals are exactly
`(a - b).days` for dates.  Of `_parse_date_from_string`'s format list the
embedding implements the calendar-date formats `%Y-%m-%d`, `%B %d, %Y`,
`%d %B %Y`, `%m/%d/%Y` and `%m-%d-%Y` in the source's order; the
time-of-day variant `%Y-%m-%d %H:%M` and the regex fallback that digs a
date out of longer prose strings are not modelled (no theorem below
depends on them). -/

def isLeapYear (y : Nat) : Bool :=
  y % 4 = 0 && (y % 100 ≠ 0 || y % 400 = 0)

def daysInMonth (y m : Nat) : Nat :=
  if m = 1 then 31
  else if m = 2 then (if isLeapYear y then 29 else 28)
  else if m = 3 then 31
  else if m = 4 then 30
  else if m = 5 then 31
  else if m = 6 then 30
  else if m = 7 then 31
  else if m = 8 then 31
  else if m = 9 then 30
  else if m = 10 then 31
  else if m = 11 then 30
  else 31

/-- Days in year `y` strictly before month `m`. -/
def daysBeforeMonth (y m : Nat) : Nat :=
  (List.range (m - 1)).foldl (fun acc i => acc + daysInMonth y (i + 1)) 0

/-- Python `date(y, m, d).toordinal()`. -/
def toOrdinal (y m d : Nat) : Nat :=
  365 * (y - 1) + (y - 1) / 4 + (y - 1) / 400 - (y - 1) / 100 +
    daysBeforeMonth y m + d

/-- `strptime`'s field validation: 1 ≤ year ≤ 9999, month in range, day in
range for that month. -/
def mkValidDate (y m d : Nat) : Option Nat :=
  if 1 ≤ y && y ≤ 9999 && 1 ≤ m && m ≤ 12 && 1 ≤ d && d ≤ daysInMonth y m
  then some (toOrdinal y m d) else none

/-- A `%Y`/`%m`/`%d` numeric field: all digits, between `lo` and `hi`
characters long. -/
def digitField (lo hi : Nat) (cs : List Char) : Bool :=
  charsAllDigits cs && lo ≤ cs.length && cs.length ≤ hi

/-- Format `%Y-%m-%d`. -/
def parseIsoDate (cs : List Char) : Option Nat :=
  match splitOnChar '-' cs with
  | [ys, ms, ds] =>
      if digitField 1 4 ys && digitField 1 2 ms && digitField 1 2 ds then
        mkValidDate (digitsToNat ys) (digitsToNat ms) (digitsToNat ds)
      else none
  | _ => none

def monthNames : List String :=
  ["january", "february", "march", "april", "may", "june", "july",
   "august", "september", "october", "november", "december"]

/-- `%B`: index of a full month name, case-insensitively. -/
def monthIndex (cs : List Char) : Option Nat :=
  let low : List Char := cs.map Char.toLower
  (monthNames.indexOf? (⟨low⟩ : String)).map (· + 1)

/-- Format `%B %d, %Y` (e.g. "September 26, 2025"). -/
def parseMonthDayYear (cs : List Char) : Option Nat :=
  match splitOnChar ' ' cs with
  | [mons, dcs, ys] =>
      match monthIndex mons with
      | some m =>
          match dcs.reverse with
          | ',' :: drev =>
              let ds := drev.reverse
              if digitField 1 2 ds && digitField 1 4 ys then
                mkValidDate (digitsToNat ys) m (digitsToNat ds)
              else none
          | _ => none
      | none => none
  | _ => none

/-- Format `%d %B %Y` (e.g. "26 September 2025"). -/
def parseDayMonthYear (cs : List Char) : Option Nat :=
  match splitOnChar ' ' cs with
  | [ds, mons, ys] =>
      match monthIndex mons with
      | some m =>
          if digitField 1 2 ds && digitField 1 4 ys then
            mkValidDate (digitsToNat ys) m (digitsToNat ds)
          else none
      | none => none
  | _ => none

/-- Format `%m/%d/%Y`. -/
def parseSlashDate (cs : List Char) : Option Nat :=
  match splitOnChar '/' cs with
  | [ms, ds, ys] =>
      if digitField 1 2 ms && digitField 1 2 ds && digitField 1 4 ys then
        mkValidDate (digitsToNat ys) (digitsToNat ms) (digitsToNat ds)
      else none
  | _ => none

/-- Format `%m-%d-%Y`. -/
def parseDashDate (cs : List Char) : Option Nat :=
  match splitOnChar '-' cs with
  | [ms, ds, ys] =>
      if digitField 1 2 ms && digitField 1 2 ds && digitField 1 4 ys then
        mkValidDate (digitsToNat ys) (digitsToNat ms) (digitsToNat ds)
      else none
  | _ => none

/-- `IMDbEnricher._parse_date_from_string` (lines 534–577): empty strings
parse to nothing; otherwise the formats are tried in the source's order and
the first success wins. -/
def parse_date_from_string (s : String) : Option Nat :=
  if s = "" then none
  else
    match parseIsoDate s.data with
    | some d => some d
    | none =>
      match parseMonthDayYear s.data with
      | some d => some d
      | none =>
        match parseDayMonthYear s.data with
        | some d => some d
        | none =>
          match parseSlashDate s.data with
          | some d => some d
          | none => parseDashDate s.data

/-- The parsed screening dates of a batch, in batch order — the `all_dates`
list of `IMDbEnricher._get_festival_start_date` (lines 896–913). -/
def festival_screening_dates (films : List Film) : List Nat :=
  (films.map (fun f => f.screenings.filterMap parse_date_from_string)).flatten

/-- `IMDbEnricher._get_festival_start_date` (lines 896–920): the minimum of
all parsed screening dates, or `None` when nothing parses. -/
def get_festival_start_date (films : List Film) : Option Nat :=
  (festival_screening_dates films).min?

/-- `IMDbEnricher._is_festival_debut` (lines 922–953): false when the
release-date string is falsy, the festival start is missing, or the string
does not parse; otherwise true iff the absolute day difference is at most
21. -/
def is_festival_debut (imdb_theatrical_date : String)
    (festival_start_date : Option Nat) : Bool :=
  match festival_start_date with
  | none => false
  | some fs =>
      if imdb_theatrical_date = "" then false
      else
        match parse_date_from_string imdb_theatrical_date with
        | none => false
        | some d => ((d : Int) - (fs : Int)).natAbs ≤ 21

/-- A concrete two-record batch for the C5 witness: screenings on
2025-09-27 and 2025-09-26, plus one unparseable screening string. -/
def festivalBatch : List Film :=
  [{ title := "A", screenings := ["September 27, 2025"] },
   { title := "B", screenings := ["2025-09-26", "garbage"] }]

/-- `IMDbEnricher.get_cached_or_fetch` (lines 1071–1104): any existing cache
entry is served unconditionally (the function has no age or force-refresh
parameters at all); otherwise exactly one network request is made, whose
result is cached and returned on success, while a `requests.RequestException`
yields the empty string.  The second component counts network attempts. -/
def imdb_get_cached_or_fetch (cacheExists : Bool) (cachedContent : String)
    (fetchResult : Option String) : String × Nat :=
  if cacheExists then (cachedContent, 0)
  else
    match fetchResult with
    | some c => (c, 1)
    | none => ("", 1)

end NyffScraper

namespace NyffScraper

/-! ## Theorems -/

/-- C1: for every film record processed by the scoring engine, the computed
distribution score lies in [0,100] (the raw component sum is clamped), and
the `is_likely_distributed` flag equals `score >= 50` as a pure function of
the clamped score. -/
theorem C1_score_clamped_and_flag (film : Film) :
    0 ≤ (calculate_distribution_likelihood_score film).1 ∧
    (calculate_distribution_likelihood_score film).1 ≤ 100 ∧
    ((calculate_distribution_likelihood_score film).2.1 = true ↔
      (calculate_distribution_likelihood_score film).1 ≥ 50) := by
  unfold calculate_distribution_likelihood_score
  refine ⟨le_max_left 0 _, ?_, ?_⟩
  · exact max_le (by norm_num) (min_le_left 100 _)
  · exact decide_eq_true_iff

/-- C2: the distribution score is the clamped sum of the three components
(section weight, reference-database signal, legacy producer/distributor
signal) with the fixed section-weight table; a "shorts" record with exactly
one distributor sums to −80 + 40 + 30 = −10 and clamps to score 0 with the
flag false, and a "main slate" record with no other signals scores exactly
50 with the flag true. -/
theorem C2_score_components_and_scenarios :
    (∀ film : Film,
      (calculate_distribution_likelihood_score film).1 =
        max 0 (min 100
          (calculate_festival_section_score (extract_festival_section film) +
           calculate_imdb_score film film.theatrical_release_date +
           calculate_legacy_producer_distributor_score film))) ∧
    (section_weights "main slate" = 50 ∧ section_weights "spotlight" = 45 ∧
     section_weights "currents" = -40 ∧ section_weights "restoration" = -70 ∧
     section_weights "revivals" = -70 ∧ section_weights "shorts" = -80 ∧
     section_weights "unknown" = 0) ∧
    (extract_festival_section shortsProgramFilm = "shorts" ∧
     calculate_festival_section_score (extract_festival_section shortsProgramFilm) = -80 ∧
     calculate_imdb_score shortsProgramFilm shortsProgramFilm.theatrical_release_date = 40 ∧
     calculate_legacy_producer_distributor_score shortsProgramFilm = 30 ∧
     calculate_distribution_likelihood_score shortsProgramFilm = (0, false, none)) ∧
    (extract_festival_section mainSlateFilm = "main slate" ∧
     calculate_festival_section_score (extract_festival_section mainSlateFilm) = 50 ∧
     calculate_imdb_score mainSlateFilm mainSlateFilm.theatrical_release_date = 0 ∧
     calculate_legacy_producer_distributor_score mainSlateFilm = 0 ∧
     calculate_distribution_likelihood_score mainSlateFilm = (50, true, none)) := by
  refine ⟨fun film => rfl, by decide, by decide, by decide⟩

/-- The cache decision, spelled out. -/
lemma should_use_cache_eq_true_iff (ce fr : Bool) (ma : Option ℚ) (age : ℚ) :
    should_use_cache ce fr ma age = true ↔
      ce = true ∧ fr = false ∧ (ma = none ∨ ∃ m, ma = some m ∧ age ≤ m) := by
  cases ce <;> cases fr <;> cases ma <;>
    simp [should_use_cache]

/-- The retry loop always performs at least one network attempt. -/
lemma one_le_fetch_attempts (o : Fin 3 → AttemptOutcome) :
    1 ≤ (fetch_with_retries o).2 := by
  unfold fetch_with_retries
  cases o 0 <;> simp <;> cases o 1 <;> simp <;> cases o 2 <;> simp

/-- The retry loop performs at most three network attempts. -/
lemma fetch_attempts_le_three (o : Fin 3 → AttemptOutcome) :
    (fetch_with_retries o).2 ≤ 3 := by
  unfold fetch_with_retries
  cases o 0 <;> simp <;> cases o 1 <;> simp <;> cases o 2 <;> simp

/-- When every attempt fails, the retry loop returns `none` after exactly
three attempts. -/
lemma fetch_all_fail (o : Fin 3 → AttemptOutcome)
    (h : ∀ i, (o i).isSuccess = false) :
    fetch_with_retries o = (none, 3) := by
  have hne : ∀ (i : Fin 3) (c : String), o i ≠ AttemptOutcome.success c := by
    intro i c hc
    have hi := h i
    rw [hc] at hi
    exact absurd hi (by simp [AttemptOutcome.isSuccess])
  unfold fetch_with_retries
  split
  · next c heq => exact absurd heq (hne 0 c)
  · split
    · next c heq => exact absurd heq (hne 1 c)
    · split
      · next c heq => exact absurd heq (hne 2 c)
      · rfl

/-- The backup loop leaves `content = None` when every backup fetch returns
`None`. -/
lemma backup_loop_all_none (bs : List (Option String))
    (h : ∀ b ∈ bs, b = none) : backup_loop none bs = none := by
  induction bs with
  | nil => rfl
  | cons b rest ih =>
      have hb : b = none := h b (List.mem_cons_self b rest)
      subst hb
      simpa [backup_loop, contentTruthy] using
        ih (fun x hx => h x (List.mem_cons_of_mem _ hx))

/-- C3: the fetch cache returns the cached content with zero network
attempts exactly when a cached entry exists, force-refresh is not requested,
and either no maximum age was given or the entry's age in minutes is at most
that maximum; and with `max_age_minutes = 45` and a 50-minute-old cache
file the cache is stale and at least one network attempt is made. -/
theorem C3_cache_hit_condition :
    (∀ (ce fr : Bool) (ma : Option ℚ) (age : ℚ) (cached : String)
        (o : Fin 3 → AttemptOutcome),
      ((get_cached_or_fetch ce fr ma age cached o).2 = 0 ∧
        (get_cached_or_fetch ce fr ma age cached o).1 = some cached) ↔
      (ce = true ∧ fr = false ∧
        (ma = none ∨ ∃ m, ma = some m ∧ age ≤ m))) ∧
    (∀ (cached : String) (o : Fin 3 → AttemptOutcome),
      1 ≤ (get_cached_or_fetch true false (some 45) 50 cached o).2) := by
  constructor
  · intro ce fr ma age cached o
    rw [← should_use_cache_eq_true_iff ce fr ma age]
    unfold get_cached_or_fetch
    by_cases h : should_use_cache ce fr ma age = true
    · simp [h]
    · rw [if_neg (by simpa using h)]
      constructor
      · rintro ⟨h2, -⟩
        have := one_le_fetch_attempts o
        omega
      · intro hc
        exact absurd hc h
  · intro cached o
    have hs : should_use_cache true false (some 45) 50 = false := by decide
    unfold get_cached_or_fetch
    rw [hs]
    simpa using one_le_fetch_attempts o

/-- C4: when every attempt fails, the fetch layer performs at most three
(and exactly three) network attempts and returns `none` rather than raising;
and when the primary lineup fetch and every backup fetch yield `none`, the
lineup extractor returns the empty list. -/
theorem C4_exhaustion_returns_none_and_empty_lineup :
    (∀ o : Fin 3 → AttemptOutcome, (fetch_with_retries o).2 ≤ 3) ∧
    (∀ o : Fin 3 → AttemptOutcome,
      (∀ i, (o i).isSuccess = false) → fetch_with_retries o = (none, 3)) ∧
    (∀ (bs : List (Option String)) (parse : String → List Film),
      (∀ b ∈ bs, b = none) → scrape_nyff_lineup none bs parse = []) := by
  refine ⟨fetch_attempts_le_three, fetch_all_fail, ?_⟩
  intro bs parse h
  unfold scrape_nyff_lineup
  simp [backup_loop_all_none bs h]

/-- Witness for C4 at concrete inputs: three failed attempts, and a backup
list of three `None` results. -/
theorem C4_witness :
    (∀ i : Fin 3,
      ((fun _ => AttemptOutcome.failure none) i).isSuccess = false) ∧
    fetch_with_retries (fun _ => AttemptOutcome.failure none) = (none, 3) ∧
    (∀ b ∈ ([none, none, none] : List (Option String)), b = none) ∧
    scrape_nyff_lineup none [none, none, none] (fun _ => []) = [] :=
  ⟨fun _ => rfl,
   C4_exhaustion_returns_none_and_empty_lineup.2.1 _ (fun _ => rfl),
   by decide,
   C4_exhaustion_returns_none_and_empty_lineup.2.2 _ _ (by decide)⟩

/-- C10: the extra-long rate-limit branch of the retry error handler is
unreachable — no failure ever receives the 10–20 s delay — because a 429
status is already matched by the preceding 403/503/429 condition and gets
the 5–10 s delay. -/
theorem C10_extra_long_delay_unreachable :
    (∀ (attempt : Nat) (status : Option Nat),
      retry_failure_delay attempt status ≠ RetryDelay.extraLong) ∧
    (∀ attempt : Nat, attempt < 2 →
      retry_failure_delay attempt (some 429) = RetryDelay.cloudflare) := by
  constructor
  · intro attempt status
    unfold retry_failure_delay
    split
    · cases status with
      | none => simp
      | some s =>
          by_cases h3 : s = 403 ∨ s = 503 ∨ s = 429
          · rcases h3 with h | h | h <;> simp [h]
          · push_neg at h3
            simp [h3.1, h3.2.1, h3.2.2]
    · simp
  · intro attempt h
    unfold retry_failure_delay
    simp [h]

/-- Trailer enrichment never changes the shorts-program flag. -/
lemma trailer_enrich_film_is_short_program (st : Bool) (r : String)
    (f : Film) :
    (trailer_enrich_film st r f).is_short_program = f.is_short_program := by
  unfold trailer_enrich_film
  split_ifs <;> rfl

/-- C6: after trailer enrichment, every record with `is_short_program = true`
has `trailer_url = ""` — the trailer search is skipped for shorts programs
and no trailer URL is ever assigned to them. -/
theorem C6_shorts_never_get_trailer (st : Bool) (limit : Option Nat)
    (search : Film → String) (films : List Film) (f : Film)
    (hf : f ∈ trailer_enrich_films st limit search films)
    (hs : f.is_short_program = true) :
    f.trailer_url = some "" := by
  unfold trailer_enrich_films at hf
  rw [List.mem_map] at hf
  obtain ⟨g, -, rfl⟩ := hf
  rw [trailer_enrich_film_is_short_program] at hs
  unfold trailer_enrich_film
  rw [if_pos hs]

/-- Witness for C6 at a concrete input: a one-element batch holding a shorts
program. -/
theorem C6_witness :
    shortsBatchEnriched ∈
      trailer_enrich_films true none (fun _ => "found") [shortsBatchFilm] ∧
    shortsBatchEnriched.is_short_program = true ∧
    shortsBatchEnriched.trailer_url = some "" := by
  refine ⟨by decide, by decide, ?_⟩
  exact C6_shorts_never_get_trailer true none (fun _ => "found")
    [shortsBatchFilm] shortsBatchEnriched (by decide) (by decide)

/-- On a list of already-stripped strings, the cleanup step yields a list
with no two entries equal after stripping and no entry empty after
stripping. -/
lemma clean_company_list_spec (l : List String)
    (h : ∀ s ∈ l, pyStrip s = s) :
    (clean_company_list l).Pairwise (fun a b => pyStrip a ≠ pyStrip b) ∧
    ∀ s ∈ clean_company_list l, pyStrip s ≠ "" := by
  constructor
  · have hnd : (clean_company_list l).Nodup := List.nodup_dedup _
    refine List.Pairwise.imp_of_mem ?_ hnd
    intro a b ha hb hne
    have ha' : a ∈ l := (List.mem_filter.mp (List.mem_dedup.mp ha)).1
    have hb' : b ∈ l := (List.mem_filter.mp (List.mem_dedup.mp hb)).1
    rw [h a ha', h b hb']
    exact hne
  · intro s hs
    have := (List.mem_filter.mp (List.mem_dedup.mp hs)).2
    exact of_decide_eq_true this

/-- C7: the production-company and distributor lists produced by the
company-credits extraction are deduplicated by exact string equality after
trimming — in each output list no two entries are equal after trimming and
no entry is empty after trimming.  (Each extracted name enters the cleanup
already stripped, since it is produced by `get_text(strip=True)`; that is
the two hypotheses.) -/
theorem C7_company_lists_deduped_and_nonempty
    (pcs dists : List String)
    (hp : ∀ s ∈ pcs, pyStrip s = s) (hd : ∀ s ∈ dists, pyStrip s = s) :
    ((get_company_credits_result pcs dists).1.Pairwise
        (fun a b => pyStrip a ≠ pyStrip b) ∧
      ∀ s ∈ (get_company_credits_result pcs dists).1, pyStrip s ≠ "") ∧
    ((get_company_credits_result pcs dists).2.Pairwise
        (fun a b => pyStrip a ≠ pyStrip b) ∧
      ∀ s ∈ (get_company_credits_result pcs dists).2, pyStrip s ≠ "") :=
  ⟨clean_company_list_spec pcs hp, clean_company_list_spec dists hd⟩

/-- Witness for C7 at concrete inputs: duplicated and empty entries are
removed from each list. -/
theorem C7_witness :
    (∀ s ∈ (["A24", "A24", "Neon", ""] : List String), pyStrip s = s) ∧
    (∀ s ∈ (["Mubi"] : List String), pyStrip s = s) ∧
    (get_company_credits_result ["A24", "A24", "Neon", ""] ["Mubi"] =
      (["A24", "Neon"], ["Mubi"])) ∧
    ((get_company_credits_result ["A24", "A24", "Neon", ""] ["Mubi"]).1.Pairwise
        (fun a b => pyStrip a ≠ pyStrip b) ∧
      ∀ s ∈ (get_company_credits_result ["A24", "A24", "Neon", ""] ["Mubi"]).1,
        pyStrip s ≠ "") :=
  ⟨by decide, by decide, by decide,
   (C7_company_lists_deduped_and_nonempty ["A24", "A24", "Neon", ""] ["Mubi"]
     (by decide) (by decide)).1⟩

/-- C9: the IMDb enricher's own fetch layer serves any existing cache entry
unconditionally, performs exactly one network attempt when there is no cache
entry, and returns the empty string (not `None`, not an exception) when the
request fails; in particular, on a cache entry that the Fetch Cache contract
(45-minute window, 50-minute-old file) would treat as stale, it still serves
the cache with zero network attempts while `NYFFScraper.get_cached_or_fetch`
attempts the network. -/
theorem C9_imdb_fetch_ignores_staleness :
    (∀ (cached : String) (r : Option String),
      imdb_get_cached_or_fetch true cached r = (cached, 0)) ∧
    (∀ (cached : String) (r : Option String),
      (imdb_get_cached_or_fetch false cached r).2 = 1) ∧
    (∀ cached : String,
      imdb_get_cached_or_fetch false cached none = ("", 1)) ∧
    (∀ (cached : String) (r : Option String) (o : Fin 3 → AttemptOutcome),
      imdb_get_cached_or_fetch true cached r = (cached, 0) ∧
      1 ≤ (get_cached_or_fetch true false (some 45) 50 cached o).2) := by
  refine ⟨fun cached r => rfl, ?_, fun cached => rfl, ?_⟩
  · intro cached r
    unfold imdb_get_cached_or_fetch
    cases r <;> rfl
  · intro cached r o
    refine ⟨rfl, ?_⟩
    unfold get_cached_or_fetch
    rw [if_neg (by simp [should_use_cache]; norm_num)]
    exact one_le_fetch_attempts o

/-- C5: the festival start date is the earliest parsed screening date
across the whole batch; for a record whose external theatrical release date
parses, the festival-debut flag is true exactly when that date lies within
21 days of the festival start; with festival start 2025-09-26, release date
2025-10-10 is 14 days away and flagged true while 2025-12-01 is 66 days
away and flagged false. -/
theorem C5_festival_debut_window :
    (∀ (films : List Film) (d : Nat),
      get_festival_start_date films = some d ↔
        d ∈ festival_screening_dates films ∧
        ∀ e ∈ festival_screening_dates films, d ≤ e) ∧
    (∀ (s : String) (fs d : Nat), parse_date_from_string s = some d →
      (is_festival_debut s (some fs) = true ↔
        ((d : Int) - (fs : Int)).natAbs ≤ 21)) ∧
    (parse_date_from_string "2025-10-10" = some (toOrdinal 2025 10 10) ∧
     (toOrdinal 2025 10 10 : Int) - (toOrdinal 2025 9 26 : Int) = 14 ∧
     is_festival_debut "2025-10-10" (some (toOrdinal 2025 9 26)) = true) ∧
    (parse_date_from_string "2025-12-01" = some (toOrdinal 2025 12 1) ∧
     (toOrdinal 2025 12 1 : Int) - (toOrdinal 2025 9 26 : Int) = 66 ∧
     is_festival_debut "2025-12-01" (some (toOrdinal 2025 9 26)) = false) := by
  refine ⟨?_, ?_, by decide, by decide⟩
  · intro films d
    exact List.min?_eq_some_iff'
  · intro s fs d h
    have hs : s ≠ "" := by
      intro he
      rw [he] at h
      simp [parse_date_from_string] at h
    simp only [is_festival_debut, if_neg hs, h]
    exact decide_eq_true_iff

/-- C8: the classification engine is idempotent — applying the
metadata-classification enrichment twice to a film record yields the same
shorts-program, restoration and intro/Q&A flags, the same category, and the
same distribution score and likely-distributed flag as applying it once. -/
theorem C8_classification_idempotent (f : Film) :
    (metadata_enrich_film (metadata_enrich_film f)).is_short_program
        = (metadata_enrich_film f).is_short_program ∧
    (metadata_enrich_film (metadata_enrich_film f)).is_restoration
        = (metadata_enrich_film f).is_restoration ∧
    (metadata_enrich_film (metadata_enrich_film f)).has_intro_or_qna
        = (metadata_enrich_film f).has_intro_or_qna ∧
    (metadata_enrich_film (metadata_enrich_film f)).category
        = (metadata_enrich_film f).category ∧
    (metadata_enrich_film (metadata_enrich_film f)).distribution_likelihood_score
        = (metadata_enrich_film f).distribution_likelihood_score ∧
    (metadata_enrich_film (metadata_enrich_film f)).is_likely_to_be_distributed
        = (metadata_enrich_film f).is_likely_to_be_distributed := by
  cases h : f.filmNotes <;>
    refine ⟨?_, ?_, ?_, ?_, ?_, ?_⟩ <;>
    simp only [metadata_enrich_film, set_film_notes,
      enrich_film_with_distribution_score, classify_film, h] <;> rfl

/-- Witness for C5 at concrete inputs: the batch `festivalBatch` has
festival start 2025-09-26, and the debut biconditional instantiated at
release date 2025-10-10. -/
theorem C5_witness :
    get_festival_start_date festivalBatch = some (toOrdinal 2025 9 26) ∧
    parse_date_from_string "2025-10-10" = some (toOrdinal 2025 10 10) ∧
    (is_festival_debut "2025-10-10" (some (toOrdinal 2025 9 26)) = true ↔
      ((toOrdinal 2025 10 10 : Int) - (toOrdinal 2025 9 26 : Int)).natAbs
        ≤ 21) :=
  ⟨(C5_festival_debut_window.1 festivalBatch (toOrdinal 2025 9 26)).mpr
      ⟨by decide, by decide⟩,
   by decide,
   C5_festival_debut_window.2.1 "2025-10-10" (toOrdinal 2025 9 26)
     (toOrdinal 2025 10 10) (by decide)⟩

/-- Witness for C10 at a concrete input: a non-final attempt failing with
HTTP 429 takes the 5–10 s branch, not the extra-long one. -/
theorem C10_witness :
    retry_failure_delay 0 (some 429) ≠ RetryDelay.extraLong ∧
    (0 < 2 ∧ retry_failure_delay 0 (some 429) = RetryDelay.cloudflare) :=
  ⟨C10_extra_long_delay_unreachable.1 0 (some 429),
   by decide,
   C10_extra_long_delay_unreachable.2 0 (by decide)⟩

end NyffScraper
